import Mathlib

/-!
Verification of the Aronnax orchestration layer (Python package `aronnax`,
files `core.py` and `driver.py`) against its natural-language specification.

The Python code is shallowly embedded: Python values that flow through the
configuration store are modelled by `PyVal`; Python exceptions by `PyErr`;
fallible Python code returns `Except PyErr _`.  Numeric arrays use exact
rationals (`ℚ`) for their elements, since every claim under study concerns
shapes, index arrangement and control flow, not floating-point rounding.
-/

namespace Aronnax

/-- Python exceptions raised by the embedded code. -/
inductive PyErr where
  | nameError : String → PyErr
  | typeError : String → PyErr
  | attributeError : String → PyErr
  | valueError : String → PyErr
  | keyError : String → PyErr
  | assertionError : PyErr
  | noSection : String → PyErr
  | noOption : String → String → PyErr
  | ioError : String → PyErr
  | unrecognizedOption : String → PyErr
  | unexpectedSection : String → PyErr
  | notImplemented : String → PyErr
  deriving DecidableEq

/-- ASCII lowercasing of one character (the case folding relevant to this
code, whose option values and names are ASCII). -/
def asciiLower (c : Char) : Char :=
  if 'A' ≤ c ∧ c ≤ 'Z' then Char.ofNat (c.toNat + 32) else c

/-- ASCII uppercasing of one character. -/
def asciiUpper (c : Char) : Char :=
  if 'a' ≤ c ∧ c ≤ 'z' then Char.ofNat (c.toNat - 32) else c

/-- Model of Python's `s.lower()`. -/
def lowerStr (s : String) : String :=
  String.mk (s.toList.map asciiLower)

/-- Model of Python's `s.upper()`. -/
def upperStr (s : String) : String :=
  String.mk (s.toList.map asciiUpper)

/-- The whitespace characters stripped by Python's `str.strip()` and by
`int()` / `float()` conversions. -/
def isPySpace (c : Char) : Bool :=
  c = ' ' ∨ c = '\t' ∨ c = '\n' ∨ c = '\r' ∨ c = '\x0b' ∨ c = '\x0c'

/-- Strip leading and trailing whitespace from a character list. -/
def trimChars (cs : List Char) : List Char :=
  ((cs.dropWhile isPySpace).reverse.dropWhile isPySpace).reverse

/-- Python values stored in the configuration: the config store is untyped, a
`RawConfigParser` keeps whatever object was `set` (strings when parsed from a
file, arbitrary objects when merged from keyword options). -/
inductive PyVal where
  | int : Int → PyVal
  | float : ℚ → PyVal
  | bool : Bool → PyVal
  | str : String → PyVal
  deriving DecidableEq

/-- Python equality test of a stored value against the boolean `b`
(`v == True` / `v == False`).  In Python, `True == 1 == 1.0` and
`False == 0 == 0.0`, while no string compares equal to a boolean. -/
def pyEqBool : PyVal → Bool → Bool
  | .int n, b => n = (if b then 1 else 0)
  | .float q, b => q = (if b then 1 else 0)
  | .bool b', b => b' = b
  | .str _, _ => false

/-- The configuration object: a `RawConfigParser` with a list of sections and
an untyped option store keyed by (section, option). -/
structure Config where
  sections : List String
  store : String → String → Option PyVal

/-- Model of `config.set(section, option, value)`. -/
def Config.set (cfg : Config) (sec name : String) (v : PyVal) : Config :=
  { cfg with store := fun s n => if s = sec ∧ n = name then some v else cfg.store s n }

/-- Model of `config.add_section(section)`. -/
def Config.addSection (cfg : Config) (sec : String) : Config :=
  { cfg with sections := cfg.sections ++ [sec] }

/-- Model of `config.has_section(section)`. -/
def Config.hasSection (cfg : Config) (sec : String) : Bool :=
  cfg.sections.contains sec

/-- Model of `config.get(section, option)`: `NoSectionError` when the section
is missing, `NoOptionError` when the option is missing. -/
def Config.getVal (cfg : Config) (sec name : String) : Except PyErr PyVal :=
  if cfg.sections.contains sec then
    match cfg.store sec name with
    | some v => .ok v
    | none => .error (.noOption sec name)
  else .error (.noSection sec)

/-- The fixed section list of `driver.py`. -/
def sectionList : List String :=
  ["executable", "numerics", "model", "pressure_solver", "sponge",
   "physics", "grid", "initial_conditions", "external_forcing"]

/-- Model of `default_configuration()`: all nine sections plus the two
pre-seeded executable flags (stored as the Python strings `"False"`). -/
def default_configuration : Config :=
  ((Config.mk sectionList (fun _ _ => none)).set "executable" "valgrind" (.str "False")).set
    "executable" "perf" (.str "False")

/-- The fixed key → section table `section_map` of `driver.py`, in source
order. -/
def section_map : List (String × String) :=
  [("au", "numerics"), ("ar", "numerics"), ("kh", "numerics"), ("kv", "numerics"),
   ("botDrag", "numerics"), ("dt", "numerics"), ("slip", "numerics"),
   ("niter0", "numerics"), ("nTimeSteps", "numerics"), ("dumpFreq", "numerics"),
   ("avFreq", "numerics"), ("checkpointFreq", "numerics"), ("diagFreq", "numerics"),
   ("hmin", "numerics"), ("maxits", "numerics"), ("eps", "numerics"),
   ("freesurfFac", "numerics"), ("thickness_error", "numerics"),
   ("debug_level", "numerics"), ("hAdvecScheme", "numerics"),
   ("hmean", "model"), ("depthFile", "model"), ("H0", "model"), ("RedGrav", "model"),
   ("nProcX", "pressure_solver"), ("nProcY", "pressure_solver"),
   ("spongeHTimeScaleFile", "sponge"), ("spongeUTimeScaleFile", "sponge"),
   ("spongeVTimeScaleFile", "sponge"), ("spongeHFile", "sponge"),
   ("spongeUFile", "sponge"), ("spongeVFile", "sponge"),
   ("g_vec", "physics"), ("rho0", "physics"),
   ("nx", "grid"), ("ny", "grid"), ("layers", "grid"), ("dx", "grid"), ("dy", "grid"),
   ("fUfile", "grid"), ("fVfile", "grid"), ("wetMaskFile", "grid"),
   ("initUfile", "initial_conditions"), ("initVfile", "initial_conditions"),
   ("initHfile", "initial_conditions"), ("initEtaFile", "initial_conditions"),
   ("zonalWindFile", "external_forcing"), ("meridionalWindFile", "external_forcing"),
   ("DumpWind", "external_forcing"), ("wind_mag_time_series_file", "external_forcing"),
   ("RelativeWind", "external_forcing"), ("Cd", "external_forcing"),
   ("exe", "executable"), ("valgrind", "executable"), ("perf", "executable")]

/-- Model of `merge_config(config, options)`.  The Python function mutates
`config` in place while iterating over the options and raises on the first
key missing from `section_map`; the model threads the config and returns the
state it had reached when the exception (if any) was raised. -/
def merge_config : Config → List (String × PyVal) → Config × Option PyErr
  | config, [] => (config, none)
  | config, (k, v) :: rest =>
    match section_map.lookup k with
    | some sec =>
      let config := if config.hasSection sec then config else config.addSection sec
      let v := if pyEqBool v true then PyVal.str "yes" else v
      let v := if pyEqBool v false then PyVal.str "no" else v
      merge_config (config.set sec k v) rest
    | none => (config, some (.unrecognizedOption k))

/-- Model of `is_file_name_option(name)`. -/
def is_file_name_option (name : String) : Bool :=
  "File".toList.isSuffixOf name.toList || "file".toList.isSuffixOf name.toList

/-- The `RawConfigParser._boolean_states` table used by `getboolean`. -/
def boolean_states : List (String × Bool) :=
  [("1", true), ("yes", true), ("true", true), ("on", true),
   ("0", false), ("no", false), ("false", false), ("off", false)]

/-- Model of `config.getboolean(section, option)`: fetch the value, lowercase
it (an `AttributeError` when the stored object is not a string), and look the
result up in the boolean-states table (a `ValueError` when absent). -/
def Config.getboolean (cfg : Config) (sec name : String) : Except PyErr Bool := do
  let v ← cfg.getVal sec name
  match v with
  | .str s =>
    match boolean_states.lookup (lowerStr s) with
    | some b => .ok b
    | none => .error (.valueError s)
  | _ => .error (.attributeError "lower")

/-- Model of `fortran_option_string(section, name, config)`.  It returns
`some` of a value to be rendered on a namelist line, or `none` when the line
is to be omitted; boolean interpretation of one of the three flag options can
raise. -/
def fortran_option_string (sec name : String) (config : Config) :
    Except PyErr (Option PyVal) :=
  if is_file_name_option name then
    if (config.store sec name).isSome then
      .ok (some (.str ("'" ++ ("input/" ++ (name ++ ".bin")) ++ "'")))
    else
      .ok (some (.str "''"))
  else if name = "RedGrav" ∨ name = "DumpWind" ∨ name = "RelativeWind" then
    (config.getboolean sec name).map (fun b => some (.str (if b then ".TRUE." else ".FALSE.")))
  else
    if (config.store sec name).isSome then
      .ok (config.store sec name)
    else
      .ok none

/-- Rendering of a stored value onto a namelist line (the `%s` formatting of
`generate_parameters_file`; rational values stand in for Python floats). -/
def pyRender : PyVal → String
  | .str s => s
  | .int n => toString n
  | .bool b => if b then "True" else "False"
  | .float q => toString q

/-- Model of `generate_parameters_file(config)`: the sequence of lines written
to `parameters.in`, or the exception that interrupted rendering. -/
def generate_parameters_file (config : Config) : Except PyErr (List String) :=
  (config.sections.mapM (fun sec =>
    if sectionList.contains sec then
      ((section_map.filter (fun p => p.2 = sec)).mapM (fun p =>
          (fortran_option_string sec p.1 config).map (fun v => (p.1, v)))).map
        (fun entries =>
          [" &" ++ upperStr sec] ++
          entries.filterMap (fun e =>
            e.2.map (fun v => " " ++ e.1 ++ " = " ++ pyRender v ++ ",")) ++
          [" /"])
    else
      .error (.unexpectedSection sec))).map List.flatten

/-! ## Grid geometry model (`core.py`, `Grid.__init__`) -/

/-- Model of `np.linspace(start, stop, num)`: `num` evenly spaced samples,
`start + i * (stop-start)/(num-1)`.  With `num = 1` the step divides by zero,
which in `ℚ` yields `0`, matching numpy's single-sample result `[start]`. -/
def linspace (start stop : ℚ) (num : Nat) : List ℚ :=
  (List.range num).map (fun i : Nat => start + (i : ℚ) * ((stop - start) / ((num : ℚ) - 1)))

/-- Model of the slice arithmetic `(xs[1:] + xs[:-1]) / 2`: the list of
midpoints of consecutive entries. -/
def midpoints : List ℚ → List ℚ
  | a :: b :: rest => (b + a) / 2 :: midpoints (b :: rest)
  | _ => []

/-- The grid object: corner (vorticity) axes `xp1`/`yp1`, tracer-point axes
`x`/`y`, and the sizes. -/
structure Grid where
  xp1 : List ℚ
  yp1 : List ℚ
  x : List ℚ
  y : List ℚ
  nx : Int
  ny : Int
  layers : Int
  deriving DecidableEq

/-- Model of `Grid.__init__(nx, ny, layers, dx, dy, x0, y0)`.  `np.linspace`
raises `ValueError` when asked for a negative number of samples, hence the
guard; otherwise the corner axes are `linspace` over `n*spacing` and the
tracer axes are the midpoints of consecutive corner points. -/
def Grid.make (nx ny layers : Int) (dx dy x0 y0 : ℚ) : Except PyErr Grid :=
  if nx + 1 < 0 ∨ ny + 1 < 0 then .error (.valueError "number of samples must be nonnegative")
  else
    let xp1 := linspace x0 ((nx : ℚ) * dx + x0) (nx + 1).toNat
    let yp1 := linspace y0 ((ny : ℚ) * dy + y0) (ny + 1).toNat
    .ok { xp1 := xp1, yp1 := yp1, x := midpoints xp1, y := midpoints yp1,
          nx := nx, ny := ny, layers := layers }

/-! ## Raw binary array codec (`core.py`, `interpret_raw_file`) -/

/-- Model of `os.path.basename`: the part of the path after the last slash. -/
def basename (s : List Char) : List Char :=
  (s.reverse.takeWhile (fun c => c ≠ '/')).reverse

/-- Model of `file_part.startswith(p)` with the model's filenames kept as
character lists. -/
def sw (p : String) (s : List Char) : Bool :=
  p.toList.isPrefixOf s

/-- The staggering convention derived from a file's base name: corner offsets
`dx`, `dy` and whether the record carries a layer dimension. -/
structure RawShape where
  dx : Nat
  dy : Nat
  layered : Bool
  deriving DecidableEq

/-- The sequential prefix checks of `interpret_raw_file`, mutating
`dx = 0; dy = 0; layered = True` in source order (the `snap.h` and `av.h`
branches are `pass`). -/
def rawShapeOf (file_part : List Char) : RawShape :=
  let dx := 0
  let dy := 0
  let layered := true
  let dx := if sw "snap.u" file_part then 1 else dx
  let dy := if sw "snap.v" file_part then 1 else dy
  let layered := if sw "snap.eta" file_part then false else layered
  let dx := if sw "wind_x" file_part then 1 else dx
  let layered := if sw "wind_x" file_part then false else layered
  let dy := if sw "wind_y" file_part then 1 else dy
  let layered := if sw "wind_y" file_part then false else layered
  let dx := if sw "av.u" file_part then 1 else dx
  let dy := if sw "av.v" file_part then 1 else dy
  let layered := if sw "av.eta" file_part then false else layered
  { dx := dx, dy := dy, layered := layered }

/-- Model of `.reshape(d1, d2, d3)` on the flat record `v`: a C-ordered
3-axis view, `A[a][b][c] = v[a*d2*d3 + b*d3 + c]`. -/
def reshape3 (_d1 d2 d3 : Nat) (v : Nat → ℚ) : Nat → Nat → Nat → ℚ :=
  fun a b c => v (a * (d2 * d3) + b * d3 + c)

/-- Model of `.reshape(d1, d2)` on the flat record `v`. -/
def reshape2 (_d1 d2 : Nat) (v : Nat → ℚ) : Nat → Nat → ℚ :=
  fun a b => v (a * d2 + b)

/-- Model of `.transpose()` on a 3-axis array: the axis order is reversed. -/
def transpose3 (arr : Nat → Nat → Nat → ℚ) : Nat → Nat → Nat → ℚ :=
  fun c b a => arr a b c

/-- Model of `.transpose()` on a 2-axis array. -/
def transpose2 (arr : Nat → Nat → ℚ) : Nat → Nat → ℚ :=
  fun b a => arr a b

/-- Result of reading a raw output file: a shaped array view over the flat
record, with or without a layer dimension. -/
inductive RawArray where
  | layered3 : Nat × Nat × Nat → (Nat → Nat → Nat → ℚ) → RawArray
  | flat2 : Nat × Nat → (Nat → Nat → ℚ) → RawArray

/-- Model of `interpret_raw_file(name, nx, ny, layers)` applied to the file's
flat sequential record `v` of 64-bit reals: derive the staggering from the
base name, reshape to `(layers, ny+dy, nx+dx)` (or `(ny+dy, nx+dx)` when not
layered) and reverse the axis order. -/
def interpret_raw_file (name : List Char) (nx ny layers : Nat) (v : Nat → ℚ) :
    RawArray :=
  let file_part := basename name
  let s := rawShapeOf file_part
  if s.layered then
    .layered3 (nx + s.dx, ny + s.dy, layers)
      (transpose3 (reshape3 layers (ny + s.dy) (nx + s.dx) v))
  else
    .flat2 (nx + s.dx, ny + s.dy)
      (transpose2 (reshape2 (ny + s.dy) (nx + s.dx) v))

/-! ## Field generator library (`core.py`) -/

/-- A Python object supplied as a field specification: a plain number, a
function of position, or a (per-layer) list of such objects. -/
inductive PyObj where
  | num : ℚ → PyObj
  | fn : (ℚ → ℚ → ℚ) → PyObj
  | lst : List PyObj → PyObj

/-- Elementwise evaluation of an analytic field on the meshes produced by
`np.meshgrid(xs, ys)`: the result has one row per entry of `ys`, one column
per entry of `xs`, and `result[j][i] = f xs[i] ys[j]`. -/
def meshEval (xs ys : List ℚ) (f : ℚ → ℚ → ℚ) : List (List ℚ) :=
  ys.map (fun yv => xs.map (fun xv => f xv yv))

/-- A constant array of `rows` rows and `cols` columns. -/
def fill2 (rows cols : Nat) (q : ℚ) : List (List ℚ) :=
  List.replicate rows (List.replicate cols q)

/-- Model of `tracer_point_variable_2d(grid, *h_funcs)`.  The source body
tests `isinstance(f, ...)` but no name `f` is bound in that function (the
loop of the 3-d variant was not copied over), so every call raises
`NameError: name 'f' is not defined` after building the meshes. -/
def tracer_point_variable_2d (_grid : Grid) (_h_funcs : List PyObj) :
    Except PyErr (List (List ℚ)) :=
  .error (.nameError "f")

/-- Resolution of one per-layer entry in `tracer_point_variable_3d`: a number
fills the slice uniformly, anything else is called with the meshes — calling
a non-function raises `TypeError`. -/
def resolveTracerEntry (grid : Grid) : PyObj → Except PyErr (List (List ℚ))
  | .num q => .ok (fill2 grid.ny.toNat grid.nx.toNat q)
  | .fn f => .ok (meshEval grid.x grid.y f)
  | .lst _ => .error (.typeError "object is not callable")

/-- Model of `tracer_point_variable_3d(grid, *h_funcs)`: assert the per-layer
count, then resolve each entry against the tracer (center × center) mesh. -/
def tracer_point_variable_3d (grid : Grid) (h_funcs : List PyObj) :
    Except PyErr (List (List (List ℚ))) :=
  if grid.layers = h_funcs.length then
    h_funcs.mapM (resolveTracerEntry grid)
  else .error .assertionError

/-- Model of `u_point_variable_2d(grid, func)`.  A plain number reaches
`np.ones(grid.ny, grid.nx+1)`, which passes the second dimension where numpy
expects a dtype and raises `TypeError`; a function is evaluated on the
`(xp1 × y)` meshes; any other object is called and raises `TypeError`. -/
def u_point_variable_2d (grid : Grid) : PyObj → Except PyErr (List (List ℚ))
  | .num _ => .error (.typeError "data type not understood")
  | .fn f => .ok (meshEval grid.xp1 grid.y f)
  | .lst _ => .error (.typeError "object is not callable")

/-- One loop iteration of `u_point_variable_3d`: the guard tests
`isinstance(func, ...)` — `func` being the whole argument, not the entry `f`
— so for a list argument the guard is always false and the entry is called;
a numeric entry therefore raises `TypeError: object is not callable`. -/
def resolveUEntry (grid : Grid) : PyObj → Except PyErr (List (List ℚ))
  | .fn f => .ok (meshEval grid.xp1 grid.y f)
  | _ => .error (.typeError "object is not callable")

/-- Model of `u_point_variable_3d(grid, func)`: `len(func)` raises
`TypeError` unless `func` is a list; the assert compares the layer count;
then each entry goes through the `isinstance(func, ...)` guard of
`resolveUEntry`. -/
def u_point_variable_3d (grid : Grid) : PyObj → Except PyErr (List (List (List ℚ)))
  | .lst xs =>
    if grid.layers = xs.length then
      xs.mapM (resolveUEntry grid)
    else .error .assertionError
  | _ => .error (.typeError "len() of unsized object")

/-- Model of `v_point_variable_2d(grid, func)`.  Note the source meshes
`np.meshgrid(grid.y, grid.xp1)` — the y-axis first — so a function argument
is evaluated with the swapped meshes; a plain number again dies in the
malformed `np.ones(grid.ny+1, grid.nx)` call. -/
def v_point_variable_2d (grid : Grid) : PyObj → Except PyErr (List (List ℚ))
  | .num _ => .error (.typeError "data type not understood")
  | .fn f => .ok (meshEval grid.y grid.xp1 f)
  | .lst _ => .error (.typeError "object is not callable")

/-- One loop iteration of `v_point_variable_3d`, with the same
`isinstance(func, ...)` slip as the u variant: list arguments always take
the call branch `f(X, Y)` over the `(x × yp1)` meshes. -/
def resolveVEntry (grid : Grid) : PyObj → Except PyErr (List (List ℚ))
  | .fn f => .ok (meshEval grid.x grid.yp1 f)
  | _ => .error (.typeError "object is not callable")

/-- Model of `v_point_variable_3d(grid, func)`. -/
def v_point_variable_3d (grid : Grid) : PyObj → Except PyErr (List (List (List ℚ)))
  | .lst xs =>
    if grid.layers = xs.length then
      xs.mapM (resolveVEntry grid)
    else .error .assertionError
  | _ => .error (.typeError "len() of unsized object")

/-- Model of `f_plane_f_u(grid, coeff)`: shape `(nx+1, ny)` filled with the
coefficient. -/
def f_plane_f_u (grid : Grid) (coeff : ℚ) : List (List ℚ) :=
  fill2 (grid.nx + 1).toNat grid.ny.toNat coeff

/-- Model of `f_plane_f_v(grid, coeff)`: shape `(nx, ny+1)`. -/
def f_plane_f_v (grid : Grid) (coeff : ℚ) : List (List ℚ) :=
  fill2 grid.nx.toNat (grid.ny + 1).toNat coeff

/-- Model of `beta_plane_f_u(grid, f0, beta)`: `f0 + Y*beta` on the
`(xp1 × y)` meshes, shape `(ny, nx+1)`. -/
def beta_plane_f_u (grid : Grid) (f0 beta : ℚ) : List (List ℚ) :=
  meshEval grid.xp1 grid.y (fun _ yv => f0 + yv * beta)

/-- Model of `beta_plane_f_v(grid, f0, beta)`: `f0 + Y*beta` on the
`(x × yp1)` meshes, shape `(ny+1, nx)`. -/
def beta_plane_f_v (grid : Grid) (f0 beta : ℚ) : List (List ℚ) :=
  meshEval grid.x grid.yp1 (fun _ yv => f0 + yv * beta)

/-- Model of `rectangular_pool(grid)`: a `(nx, ny)` array of ones with the
boundary rows and columns forced to zero.  Assigning to row `0` of an
empty-axis array raises `IndexError` in numpy, hence the guard. -/
def rectangular_pool (grid : Grid) : Except PyErr (List (List ℚ)) :=
  let nx := grid.nx.toNat
  let ny := grid.ny.toNat
  if nx = 0 ∨ ny = 0 then .error (.valueError "index out of bounds")
  else .ok ((List.range nx).map (fun i => (List.range ny).map (fun j =>
    if i = 0 ∨ i = nx - 1 ∨ j = 0 ∨ j = ny - 1 then (0 : ℚ) else 1)))

/-! ## Numeric coercion of configuration values (`getint` / `getfloat`) -/

/-- Value of a digit string. -/
def digitsVal (cs : List Char) : Nat :=
  cs.foldl (fun a c => a * 10 + (c.toNat - 48)) 0

/-- Whether every character is a decimal digit. -/
def allDigits (cs : List Char) : Bool :=
  cs.all Char.isDigit

/-- A nonempty all-digit string, as a number. -/
def parseUnsignedInt (cs : List Char) : Option Nat :=
  if !cs.isEmpty && allDigits cs then some (digitsVal cs) else none

/-- An optionally signed all-digit string. -/
def parseSignedInt (cs : List Char) : Option Int :=
  match cs with
  | '-' :: rest => (parseUnsignedInt rest).map (fun n => -(n : Int))
  | '+' :: rest => (parseUnsignedInt rest).map (fun n => (n : Int))
  | _ => (parseUnsignedInt cs).map (fun n => (n : Int))

/-- Model of Python's `int(s)` on a string: surrounding whitespace stripped,
an optional sign, then decimal digits; anything else raises `ValueError`. -/
def parsePyInt (s : String) : Option Int :=
  parseSignedInt (trimChars s.toList)

/-- Mantissa of a Python float literal: `digits`, `digits.digits`,
`digits.` or `.digits`. -/
def parseMantissa (cs : List Char) : Option ℚ :=
  match cs.splitOn '.' with
  | [w] => (parseUnsignedInt w).map (fun n => (n : ℚ))
  | [w, f] =>
    if w.isEmpty && f.isEmpty then none
    else if allDigits w && allDigits f then
      some ((digitsVal w : ℚ) + (digitsVal f : ℚ) / ((10 : ℚ) ^ f.length))
    else none
  | _ => none

/-- An unsigned Python float literal: a mantissa with an optional
`e`/`E`-exponent.  (The special spellings `inf` and `nan` have no rational
counterpart and are left out of the model.) -/
def parseUnsignedFloat (cs : List Char) : Option ℚ :=
  match (cs.map asciiLower).splitOn 'e' with
  | [m] => parseMantissa m
  | [m, ex] => do
    let mv ← parseMantissa m
    let ev ← parseSignedInt ex
    pure (mv * (10 : ℚ) ^ (ev : ℤ))
  | _ => none

/-- Model of Python's `float(s)` on a string. -/
def parsePyFloatChars (cs : List Char) : Option ℚ :=
  match trimChars cs with
  | '-' :: rest => (parseUnsignedFloat rest).map (fun q => -q)
  | '+' :: rest => parseUnsignedFloat rest
  | t => parseUnsignedFloat t

/-- Model of Python's `float(s)` on a string. -/
def parsePyFloat (s : String) : Option ℚ :=
  parsePyFloatChars s.toList

/-- Python's `int(x)` truncates floats toward zero. -/
def pyTruncate (q : ℚ) : Int :=
  if 0 ≤ q then ⌊q⌋ else -⌊-q⌋

/-- Model of `int(v)` on a stored configuration value. -/
def pyIntOf : PyVal → Except PyErr Int
  | .int n => .ok n
  | .float q => .ok (pyTruncate q)
  | .bool b => .ok (if b then 1 else 0)
  | .str s =>
    match parsePyInt s with
    | some n => .ok n
    | none => .error (.valueError s)

/-- Model of `float(v)` on a stored configuration value. -/
def pyFloatOf : PyVal → Except PyErr ℚ
  | .int n => .ok n
  | .float q => .ok q
  | .bool b => .ok (if b then 1 else 0)
  | .str s =>
    match parsePyFloat s with
    | some q => .ok q
    | none => .error (.valueError s)

/-- Model of `config.getint(section, option)` — `int(self.get(...))`. -/
def Config.getint (cfg : Config) (sec name : String) : Except PyErr Int := do
  pyIntOf (← cfg.getVal sec name)

/-- Model of `config.getfloat(section, option)` — `float(self.get(...))`. -/
def Config.getfloat (cfg : Config) (sec name : String) : Except PyErr ℚ := do
  pyFloatOf (← cfg.getVal sec name)

/-! ## Data-specification interpreter (`core.py`) -/

/-- The `requested_data` argument of `interpret_requested_data`: either a
string or a Python object (constant / function / list). -/
inductive ReqData where
  | text : String → ReqData
  | obj : PyObj → ReqData

/-- Results produced by `interpret_requested_data`: flat, 2-d or 3-d arrays. -/
inductive NpValue where
  | arr1 : List ℚ → NpValue
  | arr2 : List (List ℚ) → NpValue
  | arr3 : List (List (List ℚ)) → NpValue

/-- Python's `f(*x)` star-unpacking: requires an iterable. -/
def starUnpack : PyObj → Except PyErr (List PyObj)
  | .lst xs => .ok xs
  | _ => .error (.typeError "argument after star must be an iterable")

/-- Model of `interpret_data_specifier`'s regex match `:(.*):(.*)` at the
start of the string: the string must begin with a colon and contain a second
one; the greedy first group extends to the last colon, so the generator name
is everything between the first and the last colon and the argument string is
what follows the last colon. -/
def interpret_data_specifier (s : String) : Option (String × String) :=
  match s.toList with
  | ':' :: rest =>
    if rest.contains ':' then
      let parts := rest.splitOn ':'
      some (String.mk (List.intercalate [':'] parts.dropLast),
        String.mk (parts.getLastD []))
    else none
  | _ => none

/-- Dispatch on `ok_generators[name]` followed by the call
`func(grid, *args)` with the parsed numeric arguments: an unknown name is a
`KeyError`, a wrong argument count a `TypeError`. -/
def callGenerator (grid : Grid) (name : String) (args : List ℚ) :
    Except PyErr NpValue :=
  if name = "tracer_point_variable_2d" then
    (tracer_point_variable_2d grid (args.map .num)).map .arr2
  else if name = "tracer_point_variable_3d" then
    (tracer_point_variable_3d grid (args.map .num)).map .arr3
  else if name = "u_point_variable_2d" then
    match args with
    | [a] => (u_point_variable_2d grid (.num a)).map .arr2
    | _ => .error (.typeError "wrong number of arguments")
  else if name = "u_point_variable_3d" then
    match args with
    | [a] => (u_point_variable_3d grid (.num a)).map .arr3
    | _ => .error (.typeError "wrong number of arguments")
  else if name = "v_point_variable_2d" then
    match args with
    | [a] => (v_point_variable_2d grid (.num a)).map .arr2
    | _ => .error (.typeError "wrong number of arguments")
  else if name = "v_point_variable_3d" then
    match args with
    | [a] => (v_point_variable_3d grid (.num a)).map .arr3
    | _ => .error (.typeError "wrong number of arguments")
  else if name = "beta_plane_f_u" then
    match args with
    | [f0, b] => .ok (.arr2 (beta_plane_f_u grid f0 b))
    | _ => .error (.typeError "wrong number of arguments")
  else if name = "beta_plane_f_v" then
    match args with
    | [f0, b] => .ok (.arr2 (beta_plane_f_v grid f0 b))
    | _ => .error (.typeError "wrong number of arguments")
  else if name = "f_plane_f_u" then
    match args with
    | [c] => .ok (.arr2 (f_plane_f_u grid c))
    | _ => .error (.typeError "wrong number of arguments")
  else if name = "f_plane_f_v" then
    match args with
    | [c] => .ok (.arr2 (f_plane_f_v grid c))
    | _ => .error (.typeError "wrong number of arguments")
  else if name = "rectangular_pool" then
    match args with
    | [] => (rectangular_pool grid).map .arr2
    | _ => .error (.typeError "wrong number of arguments")
  else .error (.keyError name)

/-- The `Grid(...)` construction at the head of `interpret_requested_data`:
the five grid options are fetched and coerced left to right, then the grid is
built. -/
def config_grid (config : Config) : Except PyErr Grid := do
  let nx ← config.getint "grid" "nx"
  let ny ← config.getint "grid" "ny"
  let layers ← config.getint "grid" "layers"
  let dx ← config.getfloat "grid" "dx"
  let dy ← config.getfloat "grid" "dy"
  Grid.make nx ny layers dx dy 0 0

/-- Model of `interpret_requested_data(requested_data, shape, config)`.  File
contents are supplied through the oracle `fsys` (`fortran_file` reads the one
sequential record of the named file; a missing file is an `IOError`).  The
grid is always constructed first; a string is then tried as a
`:generator:args` specifier and otherwise read as a raw file; any other
object is dispatched on the `shape` tag, where the final `else` of the
source's `if` chain raises the "TODO implement" exception for every tag other
than the six array shapes. -/
def interpret_requested_data (fsys : String → Option (List ℚ))
    (requested_data : ReqData) (shape : String) (config : Config) :
    Except PyErr NpValue := do
  let grid ← config_grid config
  match requested_data with
  | .text s =>
    match interpret_data_specifier s with
    | some (name, arg_str) => do
      let args ← if arg_str.length > 0 then
          (arg_str.toList.splitOn ',').mapM (fun a =>
            match parsePyFloatChars a with
            | some q => Except.ok q
            | none => Except.error (.valueError (String.mk a)))
        else pure []
      callGenerator grid name args
    | none =>
      match fsys s with
      | some record => .ok (.arr1 record)
      | none => .error (.ioError s)
  | .obj x =>
    if shape = "2dT" then do
      (tracer_point_variable_2d grid (← starUnpack x)).map .arr2
    else if shape = "3dT" then do
      (tracer_point_variable_3d grid (← starUnpack x)).map .arr3
    else if shape = "2dU" then (u_point_variable_2d grid x).map .arr2
    else if shape = "3dU" then (u_point_variable_3d grid x).map .arr3
    else if shape = "2dV" then (v_point_variable_2d grid x).map .arr2
    else if shape = "3dV" then (v_point_variable_3d grid x).map .arr3
    else .error (.notImplemented "custom generation for other input shapes")

/-- The per-file-option target shape table `data_types` of `driver.py`. -/
def data_types : List (String × String) :=
  [("depthFile", "2dT"), ("spongeHTimeScaleFile", "3dT"),
   ("spongeUTimeScaleFile", "3dU"), ("spongeVTimeScaleFile", "3dV"),
   ("spongeHFile", "3dT"), ("spongeUFile", "3dU"), ("spongeVFile", "3dV"),
   ("fUfile", "2dU"), ("fVfile", "2dV"), ("wetMaskFile", "2dT"),
   ("initUfile", "3dU"), ("initVfile", "3dV"), ("initHfile", "3dT"),
   ("initEtaFile", "2dT"), ("zonalWindFile", "2dU"),
   ("meridionalWindFile", "2dV"), ("wind_mag_time_series_file", "time")]

/-! ## Shared helpers for the verification -/

/-- Whether an `Except` computation succeeded. -/
def isOk : Except PyErr α → Bool
  | .ok _ => true
  | .error _ => false

/-- A small concrete grid shared by the concrete instantiations below
(nx = ny = 2, one layer). -/
def exampleGrid : Grid :=
  { xp1 := [0, 1, 2], yp1 := [0, 1, 2], x := [1/2, 3/2], y := [1/2, 3/2],
    nx := 2, ny := 2, layers := 1 }

/-! ## C3: `tracer_point_variable_2d` (code bug: unbound name `f`) -/

/-- C3.  The spec says `tracer_point_variable_2d(grid, value_or_fn)` fills a
`(ny, nx)` array uniformly from a number or evaluates a function on the
center × center meshes.  The code instead tests `isinstance(f, ...)` where no
name `f` is bound, so every call — number, function, or anything else —
raises `NameError` instead of returning an array. -/
theorem tracer_point_variable_2d_always_nameError (g : Grid) (h_funcs : List PyObj) :
    tracer_point_variable_2d g h_funcs = .error (.nameError "f") := rfl

/-! ## C4: `u_point_variable_3d` / `v_point_variable_3d` on numeric lists
(code bug: `isinstance` applied to the list, not the entry) -/

/-- C4.  For a list of exactly `grid.layers` plain numbers the spec promises
per-layer uniformly filled arrays, but the loop guard tests
`isinstance(func, ...)` on the whole list (never a number), so the first
numeric entry is called as a function and raises `TypeError`; with at least
one layer both 3-d staggered generators therefore fail on every all-numeric
list of the right length. -/
theorem uv_point_variable_3d_numeric_list_typeError (g : Grid) (q : ℚ) (qs : List ℚ)
    (hlen : g.layers = ((q :: qs).length : Int)) :
    u_point_variable_3d g (.lst ((q :: qs).map PyObj.num)) =
        .error (.typeError "object is not callable") ∧
      v_point_variable_3d g (.lst ((q :: qs).map PyObj.num)) =
        .error (.typeError "object is not callable") := by
  constructor <;>
    simp [u_point_variable_3d, v_point_variable_3d, hlen, List.mapM, List.mapM.loop,
      resolveUEntry, resolveVEntry, Bind.bind, Except.bind]

/-- Concrete instantiation of the previous theorem: a single-layer grid and
the numeric list `[3]`. -/
theorem uv_point_variable_3d_numeric_list_typeError_witness :
    u_point_variable_3d exampleGrid (.lst ([(3 : ℚ)].map PyObj.num)) =
        .error (.typeError "object is not callable") ∧
      v_point_variable_3d exampleGrid (.lst ([(3 : ℚ)].map PyObj.num)) =
        .error (.typeError "object is not callable") :=
  uv_point_variable_3d_numeric_list_typeError exampleGrid 3 [] (by decide)

/-! ## C5: `merge_config` on unrecognized keys (corrected: not atomic) -/

/-- C5 counterexample.  Merging `[nx := 10, bogus := 1]` into the default
configuration does fail with the unrecognized-option condition, but the
recognized key `nx`, processed before the failure, has already been set:
the configuration is not left unchanged, refuting the claim as stated. -/
theorem merge_config_not_atomic_counterexample :
    (merge_config default_configuration [("nx", .int 10), ("bogus", .int 1)]).2 =
        some (.unrecognizedOption "bogus") ∧
      (merge_config default_configuration
          [("nx", .int 10), ("bogus", .int 1)]).1.store "grid" "nx" = some (.int 10) ∧
      default_configuration.store "grid" "nx" = none := by
  refine ⟨rfl, ?_, rfl⟩
  decide

/-- C5 as amended.  Merging overrides containing a key absent from the fixed
table always fails with an unrecognized-option condition, but keys iterated
before the offending one are already set; the configuration is guaranteed
unchanged only when the unrecognized key is the first one processed. -/
theorem merge_config_unrecognized_amended :
    (∀ (cfg : Config) (ov : List (String × PyVal)),
        (∃ kv ∈ ov, section_map.lookup kv.1 = none) →
        (merge_config cfg ov).2.isSome) ∧
      (∀ (cfg : Config) (k : String) (v : PyVal) (rest : List (String × PyVal)),
        section_map.lookup k = none →
        merge_config cfg ((k, v) :: rest) = (cfg, some (.unrecognizedOption k))) := by
  constructor
  · intro cfg ov
    induction ov generalizing cfg with
    | nil => rintro ⟨kv, hmem, _⟩; cases hmem
    | cons hd tl ih =>
      rintro ⟨kv, hmem, hkv⟩
      rcases List.mem_cons.mp hmem with heq | htl
      · subst heq
        simp [merge_config, hkv]
      · cases hlk : section_map.lookup hd.1 with
        | none => simp [merge_config, hlk]
        | some sec =>
          simp only [merge_config, hlk]
          exact ih _ ⟨kv, htl, hkv⟩
  · intro cfg k v rest hk
    simp [merge_config, hk]

/-- Concrete instantiation of the amended C5 theorem at the override list
`[bogus := 1]`. -/
theorem merge_config_unrecognized_amended_witness :
    (merge_config default_configuration [("bogus", .int 1)]).2.isSome ∧
      merge_config default_configuration [("bogus", .int 1)] =
        (default_configuration, some (.unrecognizedOption "bogus")) :=
  ⟨merge_config_unrecognized_amended.1 default_configuration [("bogus", .int 1)]
      ⟨("bogus", .int 1), by decide, by decide⟩,
    merge_config_unrecognized_amended.2 default_configuration "bogus" (.int 1) [] (by decide)⟩

/-! ## C8: equality-based boolean coercion in `merge_config` -/

/-- C8.  Because `merge_config` compares the override value with `== True`
and `== False` (Python value equality, under which `1 == 1.0 == True` and
`0 == 0.0 == False`), any recognized option whose value equals 1 — the
integer 1, the float 1.0 or `True` itself — is stored as the string `"yes"`,
and any value equal to 0 as `"no"`. -/
theorem merge_config_numeric_bool_coercion (cfg : Config) (k sec : String)
    (hk : section_map.lookup k = some sec) :
    (∀ v : PyVal, v = .int 1 ∨ v = .float 1 ∨ v = .bool true →
        (merge_config cfg [(k, v)]).1.store sec k = some (.str "yes")) ∧
      (∀ v : PyVal, v = .int 0 ∨ v = .float 0 ∨ v = .bool false →
        (merge_config cfg [(k, v)]).1.store sec k = some (.str "no")) := by
  constructor <;> rintro v (rfl | rfl | rfl) <;>
    simp [merge_config, hk, Config.set, pyEqBool]

/-- Concrete instantiation of C8: merging `layers = 1` records the string
`"yes"`, not `"1"`, and `layers = 0` records `"no"`. -/
theorem merge_config_numeric_bool_coercion_witness :
    (merge_config default_configuration [("layers", .int 1)]).1.store "grid" "layers" =
        some (.str "yes") ∧
      (merge_config default_configuration [("layers", .int 0)]).1.store "grid" "layers" =
        some (.str "no") :=
  ⟨(merge_config_numeric_bool_coercion default_configuration "layers" "grid"
        (by decide)).1 _ (Or.inl rfl),
    (merge_config_numeric_bool_coercion default_configuration "layers" "grid"
        (by decide)).2 _ (Or.inl rfl)⟩

/-! ## C6: boolean flags round-trip through the textual store -/

/-- Merging one recognized option stores the boolean-coerced value (the
sequential `== True` / `== False` rewriting of the source) under the key's
home section. -/
lemma merge_single_store (cfg : Config) (k sec : String) (v : PyVal)
    (hk : section_map.lookup k = some sec) :
    (merge_config cfg [(k, v)]).1.store sec k =
      some (let v1 := if pyEqBool v true then PyVal.str "yes" else v
            if pyEqBool v1 false then PyVal.str "no" else v1) := by
  simp only [merge_config, hk, Config.set]
  simp

/-- Merging one recognized option guarantees its home section exists
afterwards. -/
lemma merge_single_sections (cfg : Config) (k sec : String) (v : PyVal)
    (hk : section_map.lookup k = some sec) :
    (merge_config cfg [(k, v)]).1.sections.contains sec = true := by
  simp only [merge_config, hk, Config.set, Config.hasSection]
  by_cases h : sec ∈ cfg.sections
  · simp [h]
  · simp [h, Config.addSection]

/-- Rendering one of the three namelist boolean flags stored as `"yes"` or
`"no"` produces `.TRUE.` or `.FALSE.`. -/
lemma fortran_bool_flag_render (cfg : Config) (sec name : String) (b : Bool)
    (hfile : is_file_name_option name = false)
    (hname : name = "RedGrav" ∨ name = "DumpWind" ∨ name = "RelativeWind")
    (hsec : cfg.sections.contains sec = true)
    (hval : cfg.store sec name = some (.str (if b then "yes" else "no"))) :
    fortran_option_string sec name cfg =
      .ok (some (.str (if b then ".TRUE." else ".FALSE."))) := by
  have hsec' : sec ∈ cfg.sections := by simpa using hsec
  unfold fortran_option_string Config.getboolean Config.getVal
  cases b <;>
    simp [hfile, hname, hsec', hval, Bind.bind, Except.bind, boolean_states,
      lowerStr, asciiLower] <;> rfl

/-- C6.  Merging a source-level boolean for each of the five recognized flag
options stores the literal strings `"yes"`/`"no"`, and for the three
namelist-visible flags the parameter-file value rendering of the stored
string emits `.TRUE.`/`.FALSE.` — the full boolean round trip. -/
theorem boolean_flag_round_trip (cfg : Config) (b : Bool) :
    ((merge_config cfg [("RedGrav", .bool b)]).1.store "model" "RedGrav" =
        some (.str (if b then "yes" else "no"))) ∧
      ((merge_config cfg [("DumpWind", .bool b)]).1.store "external_forcing" "DumpWind" =
        some (.str (if b then "yes" else "no"))) ∧
      ((merge_config cfg [("RelativeWind", .bool b)]).1.store "external_forcing" "RelativeWind" =
        some (.str (if b then "yes" else "no"))) ∧
      ((merge_config cfg [("valgrind", .bool b)]).1.store "executable" "valgrind" =
        some (.str (if b then "yes" else "no"))) ∧
      ((merge_config cfg [("perf", .bool b)]).1.store "executable" "perf" =
        some (.str (if b then "yes" else "no"))) ∧
      (fortran_option_string "model" "RedGrav" (merge_config cfg [("RedGrav", .bool b)]).1 =
        .ok (some (.str (if b then ".TRUE." else ".FALSE.")))) ∧
      (fortran_option_string "external_forcing" "DumpWind"
          (merge_config cfg [("DumpWind", .bool b)]).1 =
        .ok (some (.str (if b then ".TRUE." else ".FALSE.")))) ∧
      (fortran_option_string "external_forcing" "RelativeWind"
          (merge_config cfg [("RelativeWind", .bool b)]).1 =
        .ok (some (.str (if b then ".TRUE." else ".FALSE.")))) := by
  have hS : ∀ k sec, section_map.lookup k = some sec →
      (merge_config cfg [(k, .bool b)]).1.store sec k =
        some (.str (if b then "yes" else "no")) := by
    intro k sec hk
    rw [merge_single_store cfg k sec _ hk]
    cases b <;> rfl
  have hR : ∀ k sec, section_map.lookup k = some sec →
      is_file_name_option k = false →
      (k = "RedGrav" ∨ k = "DumpWind" ∨ k = "RelativeWind") →
      fortran_option_string sec k (merge_config cfg [(k, .bool b)]).1 =
        .ok (some (.str (if b then ".TRUE." else ".FALSE."))) := by
    intro k sec hk hfile hname
    exact fortran_bool_flag_render _ sec k b hfile hname
      (merge_single_sections cfg k sec _ hk) (hS k sec hk)
  refine ⟨hS _ _ (by decide), hS _ _ (by decide), hS _ _ (by decide),
    hS _ _ (by decide), hS _ _ (by decide),
    hR _ _ (by decide) (by decide) (Or.inl rfl),
    hR _ _ (by decide) (by decide) (Or.inr (Or.inl rfl)),
    hR _ _ (by decide) (by decide) (Or.inr (Or.inr rfl))⟩

/-! ## C9: the three boolean flags are mandatory for parameter rendering -/

/-- Mapping the payload does not change whether an `Except` succeeded. -/
lemma isOk_map (f : α → β) (x : Except PyErr α) : isOk (x.map f) = isOk x := by
  cases x <;> rfl

/-- The accumulator loop behind `List.mapM` over `Except` succeeds exactly
when every element does. -/
lemma isOk_mapM_loop (f : α → Except PyErr β) :
    ∀ (xs : List α) (acc : List β),
      isOk (List.mapM.loop f xs acc) = xs.all (fun a => isOk (f a))
  | [], _ => rfl
  | x :: xs, acc => by
    simp only [List.mapM.loop, List.all_cons]
    cases h : f x with
    | error e => simp [Bind.bind, Except.bind, h, isOk]
    | ok b =>
      simp only [Bind.bind, Except.bind, isOk_mapM_loop f xs (b :: acc)]
      simp [isOk]

/-- `List.mapM` over `Except` succeeds exactly when every element does. -/
lemma isOk_mapM (f : α → Except PyErr β) (xs : List α) :
    isOk (xs.mapM f) = xs.all (fun a => isOk (f a)) :=
  isOk_mapM_loop f xs []

/-- Any option other than the three boolean flags renders without error:
file options always produce a path or the empty-string sentinel, and other
options produce their stored value or are omitted. -/
lemma isOk_fortran_option_string_nonflag (cfg : Config) (sec name : String)
    (h1 : name ≠ "RedGrav") (h2 : name ≠ "DumpWind") (h3 : name ≠ "RelativeWind") :
    isOk (fortran_option_string sec name cfg) = true := by
  unfold fortran_option_string
  by_cases hf : is_file_name_option name <;>
    by_cases hs : (cfg.store sec name).isSome <;>
      simp [hf, hs, h1, h2, h3, isOk]

/-- One of the three boolean flags with no stored value makes its
`fortran_option_string` call fail with `NoOptionError`. -/
lemma isOk_fortran_option_string_flag_missing (cfg : Config) (sec name : String)
    (hname : name = "RedGrav" ∨ name = "DumpWind" ∨ name = "RelativeWind")
    (hfile : is_file_name_option name = false)
    (hsec : sec ∈ cfg.sections) (hst : cfg.store sec name = none) :
    isOk (fortran_option_string sec name cfg) = false := by
  unfold fortran_option_string Config.getboolean Config.getVal
  simp [hname, hfile, hsec, hst, Bind.bind, Except.bind, Except.map, isOk]

/-- Rendering a configuration with the standard section list fails whenever
some boolean-flag option in the fixed key table is unset in its section. -/
lemma generate_parameters_file_fails_of_flag_missing
    (st : String → String → Option PyVal) (sec name : String)
    (hmem : sec ∈ sectionList)
    (hname : name = "RedGrav" ∨ name = "DumpWind" ∨ name = "RelativeWind")
    (hfile : is_file_name_option name = false)
    (hpair : (name, sec) ∈ section_map)
    (hst : st sec name = none) :
    isOk (generate_parameters_file ⟨sectionList, st⟩) = false := by
  unfold generate_parameters_file
  rw [isOk_map, isOk_mapM]
  rw [List.all_eq_false]
  refine ⟨sec, hmem, ?_⟩
  have hc : sectionList.contains sec = true := by simpa using hmem
  simp only [hc, if_true, Bool.not_eq_true]
  rw [isOk_map, isOk_mapM]
  rw [List.all_eq_false]
  refine ⟨(name, sec), ?_, ?_⟩
  · exact List.mem_filter.mpr ⟨hpair, by simp⟩
  · rw [Bool.not_eq_true, isOk_map]
    exact isOk_fortran_option_string_flag_missing ⟨sectionList, st⟩ sec name
      hname hfile hmem hst

/-- C9.  With the standard nine sections, parameter-file generation fails
whenever any of `RedGrav`, `DumpWind`, `RelativeWind` is unset — they are
unconditionally read for boolean interpretation — while every other unset
non-file option merely has its line omitted (`fortran_option_string` yields
`none` without error). -/
theorem parameters_file_requires_bool_flags :
    (∀ st : String → String → Option PyVal, st "model" "RedGrav" = none →
        isOk (generate_parameters_file ⟨sectionList, st⟩) = false) ∧
      (∀ st : String → String → Option PyVal,
        st "external_forcing" "DumpWind" = none →
        isOk (generate_parameters_file ⟨sectionList, st⟩) = false) ∧
      (∀ st : String → String → Option PyVal,
        st "external_forcing" "RelativeWind" = none →
        isOk (generate_parameters_file ⟨sectionList, st⟩) = false) ∧
      (∀ (cfg : Config) (sec name : String), is_file_name_option name = false →
        name ≠ "RedGrav" → name ≠ "DumpWind" → name ≠ "RelativeWind" →
        cfg.store sec name = none →
        fortran_option_string sec name cfg = .ok none) := by
  refine ⟨fun st h => ?_, fun st h => ?_, fun st h => ?_, fun cfg sec name hf h1 h2 h3 hst => ?_⟩
  · exact generate_parameters_file_fails_of_flag_missing st "model" "RedGrav"
      (by decide) (Or.inl rfl) (by decide) (by decide) h
  · exact generate_parameters_file_fails_of_flag_missing st "external_forcing" "DumpWind"
      (by decide) (Or.inr (Or.inl rfl)) (by decide) (by decide) h
  · exact generate_parameters_file_fails_of_flag_missing st "external_forcing" "RelativeWind"
      (by decide) (Or.inr (Or.inr rfl)) (by decide) (by decide) h
  · unfold fortran_option_string
    simp [hf, h1, h2, h3, hst]

/-- Concrete instantiation of C9: an entirely empty store over the standard
sections cannot be rendered (RedGrav is unset), and an unset ordinary option
such as `numerics.dt` renders as an omitted line. -/
theorem parameters_file_requires_bool_flags_witness :
    isOk (generate_parameters_file ⟨sectionList, fun _ _ => none⟩) = false ∧
      fortran_option_string "numerics" "dt" ⟨sectionList, fun _ _ => none⟩ = .ok none :=
  ⟨parameters_file_requires_bool_flags.1 (fun _ _ => none) rfl,
    parameters_file_requires_bool_flags.2.2.2 ⟨sectionList, fun _ _ => none⟩
      "numerics" "dt" (by decide) (by decide) (by decide) (by decide) rfl⟩

/-! ## C7: grid axes — corner points and tracer midpoints -/

/-- Length of a `linspace`. -/
lemma linspace_length (start stop : ℚ) (num : Nat) :
    (linspace start stop num).length = num := by
  simp only [linspace, List.length_map, List.length_range]

/-- Entries of a `linspace`. -/
lemma linspace_getElem? (start stop : ℚ) (num i : Nat) (h : i < num) :
    (linspace start stop num)[i]? =
      some (start + i * ((stop - start) / ((num : ℚ) - 1))) := by
  simp [linspace, List.getElem?_range h]

/-- Length of the midpoint list. -/
lemma midpoints_length : ∀ xs : List ℚ, (midpoints xs).length = xs.length - 1
  | [] => rfl
  | [_] => rfl
  | a :: b :: rest => by
    have := midpoints_length (b :: rest)
    simp only [midpoints, List.length_cons] at this ⊢
    omega

/-- Entries of the midpoint list: the i-th midpoint averages the i-th and
(i+1)-st entries of the original list. -/
lemma midpoints_getElem? : ∀ (xs : List ℚ) (i : Nat) (a b : ℚ),
    xs[i]? = some a → xs[i + 1]? = some b →
    (midpoints xs)[i]? = some ((b + a) / 2)
  | [], i, a, b, ha, _ => by simp at ha
  | [_], i, a, b, _, hb => by
    cases i <;> simp_all
  | x :: y :: rest, 0, a, b, ha, hb => by
    simp only [List.getElem?_cons_zero] at ha
    simp only [List.getElem?_cons_succ, List.getElem?_cons_zero] at hb
    cases ha; cases hb
    simp [midpoints]
  | x :: y :: rest, i + 1, a, b, ha, hb => by
    rw [List.getElem?_cons_succ] at ha hb
    simpa [midpoints] using midpoints_getElem? (y :: rest) i a b ha hb

/-- C7.  For a grid built from positive sizes and spacings, the corner x-axis
has `nx+1` points spaced exactly `dx` apart starting at `x0` (so running to
`x0 + nx*dx`), the tracer x-axis has `nx` points, each the midpoint of the
two adjacent corner points, and likewise in y. -/
theorem grid_axes_spec (nx ny layers : Int) (dx dy x0 y0 : ℚ)
    (hnx : 0 < nx) (hny : 0 < ny) (_hdx : 0 < dx) (_hdy : 0 < dy) :
    ∃ g : Grid, Grid.make nx ny layers dx dy x0 y0 = .ok g ∧
      g.xp1.length = nx.toNat + 1 ∧
      (∀ i : Nat, i < nx.toNat + 1 → g.xp1[i]? = some (x0 + i * dx)) ∧
      g.x.length = nx.toNat ∧
      (∀ i : Nat, i < nx.toNat → ∃ a b : ℚ,
        g.xp1[i]? = some a ∧ g.xp1[i + 1]? = some b ∧ g.x[i]? = some ((a + b) / 2)) ∧
      g.yp1.length = ny.toNat + 1 ∧
      (∀ j : Nat, j < ny.toNat + 1 → g.yp1[j]? = some (y0 + j * dy)) ∧
      g.y.length = ny.toNat ∧
      (∀ j : Nat, j < ny.toNat → ∃ a b : ℚ,
        g.yp1[j]? = some a ∧ g.yp1[j + 1]? = some b ∧ g.y[j]? = some ((a + b) / 2)) := by
  have hguard : ¬(nx + 1 < 0 ∨ ny + 1 < 0) := by omega
  have axis : ∀ (n : Int) (d c0 : ℚ), 0 < n →
      ∀ i : Nat, i < (n + 1).toNat →
        (linspace c0 ((n : ℚ) * d + c0) (n + 1).toNat)[i]? = some (c0 + i * d) := by
    intro n d c0 hn i hi
    rw [linspace_getElem? _ _ _ _ hi]
    have h1 : ((n + 1).toNat : Int) = n + 1 := Int.toNat_of_nonneg (by omega)
    have hcast : (((n + 1).toNat : Nat) : ℚ) - 1 = (n : ℚ) := by
      have h2 : (((n + 1).toNat : Nat) : ℚ) = ((n : ℚ) + 1) := by exact_mod_cast h1
      rw [h2]; ring
    have hne : (n : ℚ) ≠ 0 := by
      exact_mod_cast (by omega : (n : Int) ≠ 0)
    rw [hcast]
    congr 1
    rw [show (n : ℚ) * d + c0 - c0 = (n : ℚ) * d by ring]
    rw [mul_comm (n : ℚ) d, mul_div_assoc, div_self hne, mul_one]
  have hlenx : ((nx + 1).toNat) = nx.toNat + 1 := by omega
  have hleny : ((ny + 1).toNat) = ny.toNat + 1 := by omega
  refine ⟨{ xp1 := linspace x0 ((nx : ℚ) * dx + x0) (nx + 1).toNat,
            yp1 := linspace y0 ((ny : ℚ) * dy + y0) (ny + 1).toNat,
            x := midpoints (linspace x0 ((nx : ℚ) * dx + x0) (nx + 1).toNat),
            y := midpoints (linspace y0 ((ny : ℚ) * dy + y0) (ny + 1).toNat),
            nx := nx, ny := ny, layers := layers },
        ?_, ?_, ?_, ?_, ?_, ?_, ?_, ?_, ?_⟩
  · unfold Grid.make
    rw [if_neg hguard]
  · show (linspace x0 ((nx : ℚ) * dx + x0) (nx + 1).toNat).length = nx.toNat + 1
    rw [linspace_length, hlenx]
  · intro i hi
    exact axis nx dx x0 hnx i (by omega)
  · show (midpoints (linspace x0 ((nx : ℚ) * dx + x0) (nx + 1).toNat)).length = nx.toNat
    rw [midpoints_length, linspace_length]
    omega
  · intro i hi
    refine ⟨x0 + i * dx, x0 + (i + 1 : Nat) * dx,
      axis nx dx x0 hnx i (by omega), axis nx dx x0 hnx (i + 1) (by omega), ?_⟩
    have hmid := midpoints_getElem? _ i _ _
      (axis nx dx x0 hnx i (by omega)) (axis nx dx x0 hnx (i + 1) (by omega))
    rw [show (x0 + (i + 1 : Nat) * dx) + (x0 + i * dx) =
        (x0 + i * dx) + (x0 + (i + 1 : Nat) * dx) by push_cast; ring] at hmid
    exact hmid
  · show (linspace y0 ((ny : ℚ) * dy + y0) (ny + 1).toNat).length = ny.toNat + 1
    rw [linspace_length, hleny]
  · intro j hj
    exact axis ny dy y0 hny j (by omega)
  · show (midpoints (linspace y0 ((ny : ℚ) * dy + y0) (ny + 1).toNat)).length = ny.toNat
    rw [midpoints_length, linspace_length]
    omega
  · intro j hj
    refine ⟨y0 + j * dy, y0 + (j + 1 : Nat) * dy,
      axis ny dy y0 hny j (by omega), axis ny dy y0 hny (j + 1) (by omega), ?_⟩
    have hmid := midpoints_getElem? _ j _ _
      (axis ny dy y0 hny j (by omega)) (axis ny dy y0 hny (j + 1) (by omega))
    rw [show (y0 + (j + 1 : Nat) * dy) + (y0 + j * dy) =
        (y0 + j * dy) + (y0 + (j + 1 : Nat) * dy) by push_cast; ring] at hmid
    exact hmid

/-- Concrete instantiation of C7 with nx = 10, ny = 20, dx = dy = 1e5 (the
spec's example grid): corner x-axis 11 points, tracer x-axis 10, corner
y-axis 21, tracer y-axis 20. -/
theorem grid_axes_spec_witness :
    ∃ g : Grid, Grid.make 10 20 1 100000 100000 0 0 = .ok g ∧
      g.xp1.length = (10 : Int).toNat + 1 ∧
      (∀ i : Nat, i < (10 : Int).toNat + 1 → g.xp1[i]? = some (0 + (i : ℚ) * 100000)) ∧
      g.x.length = (10 : Int).toNat ∧
      (∀ i : Nat, i < (10 : Int).toNat → ∃ a b : ℚ,
        g.xp1[i]? = some a ∧ g.xp1[i + 1]? = some b ∧ g.x[i]? = some ((a + b) / 2)) ∧
      g.yp1.length = (20 : Int).toNat + 1 ∧
      (∀ j : Nat, j < (20 : Int).toNat + 1 → g.yp1[j]? = some (0 + (j : ℚ) * 100000)) ∧
      g.y.length = (20 : Int).toNat ∧
      (∀ j : Nat, j < (20 : Int).toNat → ∃ a b : ℚ,
        g.yp1[j]? = some a ∧ g.yp1[j + 1]? = some b ∧ g.y[j]? = some ((a + b) / 2)) :=
  grid_axes_spec 10 20 1 100000 100000 0 0 (by decide) (by decide) (by decide) (by decide)

/-! ## C1: the filename-convention-driven raw output reader -/

/-- Two mutually non-prefix strings cannot both be prefixes of the same
string: knowing one prefix check succeeded settles the others. -/
lemma sw_false_of_sw {p q : String} {s : List Char}
    (h : sw p s = true) (hpq : ¬ p.toList <+: q.toList)
    (hqp : ¬ q.toList <+: p.toList) : sw q s = false := by
  rw [sw] at h ⊢
  by_contra hq
  rw [Bool.not_eq_false, List.isPrefixOf_iff_prefix] at hq
  rw [List.isPrefixOf_iff_prefix] at h
  rcases List.prefix_or_prefix_of_prefix h hq with hc | hc
  · exact hpq hc
  · exact hqp hc

/-- C1.  `interpret_raw_file` derives the staggering entirely from the base
name's prefix: the `snap.u`/`av.u` family gets `dx = 1`, the `snap.v`/`av.v`
family `dy = 1`, the `snap.eta`/`av.eta`/`wind_x`/`wind_y` families lose the
layer dimension; the record is reshaped to `(layers?, ny+dy, nx+dx)` and the
axis order reversed, giving shape `(nx+dx, ny+dy, layers?)`; a base name
matching no prefix gets the layered tracer shape `(nx, ny, layers)`. -/
theorem interpret_raw_file_spec (name : List Char) (nx ny layers : Nat) (v : Nat → ℚ) :
    ((sw "snap.h" (basename name) = true ∨ sw "av.h" (basename name) = true) →
      interpret_raw_file name nx ny layers v =
        .layered3 (nx, ny, layers) (transpose3 (reshape3 layers ny nx v))) ∧
    ((sw "snap.u" (basename name) = true ∨ sw "av.u" (basename name) = true) →
      interpret_raw_file name nx ny layers v =
        .layered3 (nx + 1, ny, layers) (transpose3 (reshape3 layers ny (nx + 1) v))) ∧
    ((sw "snap.v" (basename name) = true ∨ sw "av.v" (basename name) = true) →
      interpret_raw_file name nx ny layers v =
        .layered3 (nx, ny + 1, layers) (transpose3 (reshape3 layers (ny + 1) nx v))) ∧
    ((sw "snap.eta" (basename name) = true ∨ sw "av.eta" (basename name) = true) →
      interpret_raw_file name nx ny layers v =
        .flat2 (nx, ny) (transpose2 (reshape2 ny nx v))) ∧
    (sw "wind_x" (basename name) = true →
      interpret_raw_file name nx ny layers v =
        .flat2 (nx + 1, ny) (transpose2 (reshape2 ny (nx + 1) v))) ∧
    (sw "wind_y" (basename name) = true →
      interpret_raw_file name nx ny layers v =
        .flat2 (nx, ny + 1) (transpose2 (reshape2 (ny + 1) nx v))) ∧
    ((sw "snap.h" (basename name) = false ∧ sw "snap.u" (basename name) = false ∧
      sw "snap.v" (basename name) = false ∧ sw "snap.eta" (basename name) = false ∧
      sw "wind_x" (basename name) = false ∧ sw "wind_y" (basename name) = false ∧
      sw "av.h" (basename name) = false ∧ sw "av.u" (basename name) = false ∧
      sw "av.v" (basename name) = false ∧ sw "av.eta" (basename name) = false) →
      interpret_raw_file name nx ny layers v =
        .layered3 (nx, ny, layers) (transpose3 (reshape3 layers ny nx v))) := by
  refine ⟨?_, ?_, ?_, ?_, ?_, ?_, ?_⟩
  · rintro (h | h)
    · have e0 : sw "snap.u" (basename name) = false :=
        sw_false_of_sw h (by decide) (by decide)
      have e1 : sw "snap.v" (basename name) = false :=
        sw_false_of_sw h (by decide) (by decide)
      have e2 : sw "snap.eta" (basename name) = false :=
        sw_false_of_sw h (by decide) (by decide)
      have e3 : sw "wind_x" (basename name) = false :=
        sw_false_of_sw h (by decide) (by decide)
      have e4 : sw "wind_y" (basename name) = false :=
        sw_false_of_sw h (by decide) (by decide)
      have e5 : sw "av.u" (basename name) = false :=
        sw_false_of_sw h (by decide) (by decide)
      have e6 : sw "av.v" (basename name) = false :=
        sw_false_of_sw h (by decide) (by decide)
      have e7 : sw "av.eta" (basename name) = false :=
        sw_false_of_sw h (by decide) (by decide)
      simp [interpret_raw_file, rawShapeOf, e0, e1, e2, e3, e4, e5, e6, e7]
    · have e0 : sw "snap.u" (basename name) = false :=
        sw_false_of_sw h (by decide) (by decide)
      have e1 : sw "snap.v" (basename name) = false :=
        sw_false_of_sw h (by decide) (by decide)
      have e2 : sw "snap.eta" (basename name) = false :=
        sw_false_of_sw h (by decide) (by decide)
      have e3 : sw "wind_x" (basename name) = false :=
        sw_false_of_sw h (by decide) (by decide)
      have e4 : sw "wind_y" (basename name) = false :=
        sw_false_of_sw h (by decide) (by decide)
      have e5 : sw "av.u" (basename name) = false :=
        sw_false_of_sw h (by decide) (by decide)
      have e6 : sw "av.v" (basename name) = false :=
        sw_false_of_sw h (by decide) (by decide)
      have e7 : sw "av.eta" (basename name) = false :=
        sw_false_of_sw h (by decide) (by decide)
      simp [interpret_raw_file, rawShapeOf, e0, e1, e2, e3, e4, e5, e6, e7]
  · rintro (h | h)
    · have e0 : sw "snap.v" (basename name) = false :=
        sw_false_of_sw h (by decide) (by decide)
      have e1 : sw "snap.eta" (basename name) = false :=
        sw_false_of_sw h (by decide) (by decide)
      have e2 : sw "wind_x" (basename name) = false :=
        sw_false_of_sw h (by decide) (by decide)
      have e3 : sw "wind_y" (basename name) = false :=
        sw_false_of_sw h (by decide) (by decide)
      have e4 : sw "av.u" (basename name) = false :=
        sw_false_of_sw h (by decide) (by decide)
      have e5 : sw "av.v" (basename name) = false :=
        sw_false_of_sw h (by decide) (by decide)
      have e6 : sw "av.eta" (basename name) = false :=
        sw_false_of_sw h (by decide) (by decide)
      simp [interpret_raw_file, rawShapeOf, h, e0, e1, e2, e3, e4, e5, e6]
    · have e0 : sw "snap.u" (basename name) = false :=
        sw_false_of_sw h (by decide) (by decide)
      have e1 : sw "snap.v" (basename name) = false :=
        sw_false_of_sw h (by decide) (by decide)
      have e2 : sw "snap.eta" (basename name) = false :=
        sw_false_of_sw h (by decide) (by decide)
      have e3 : sw "wind_x" (basename name) = false :=
        sw_false_of_sw h (by decide) (by decide)
      have e4 : sw "wind_y" (basename name) = false :=
        sw_false_of_sw h (by decide) (by decide)
      have e5 : sw "av.v" (basename name) = false :=
        sw_false_of_sw h (by decide) (by decide)
      have e6 : sw "av.eta" (basename name) = false :=
        sw_false_of_sw h (by decide) (by decide)
      simp [interpret_raw_file, rawShapeOf, h, e0, e1, e2, e3, e4, e5, e6]
  · rintro (h | h)
    · have e0 : sw "snap.u" (basename name) = false :=
        sw_false_of_sw h (by decide) (by decide)
      have e1 : sw "snap.eta" (basename name) = false :=
        sw_false_of_sw h (by decide) (by decide)
      have e2 : sw "wind_x" (basename name) = false :=
        sw_false_of_sw h (by decide) (by decide)
      have e3 : sw "wind_y" (basename name) = false :=
        sw_false_of_sw h (by decide) (by decide)
      have e4 : sw "av.u" (basename name) = false :=
        sw_false_of_sw h (by decide) (by decide)
      have e5 : sw "av.v" (basename name) = false :=
        sw_false_of_sw h (by decide) (by decide)
      have e6 : sw "av.eta" (basename name) = false :=
        sw_false_of_sw h (by decide) (by decide)
      simp [interpret_raw_file, rawShapeOf, h, e0, e1, e2, e3, e4, e5, e6]
    · have e0 : sw "snap.u" (basename name) = false :=
        sw_false_of_sw h (by decide) (by decide)
      have e1 : sw "snap.v" (basename name) = false :=
        sw_false_of_sw h (by decide) (by decide)
      have e2 : sw "snap.eta" (basename name) = false :=
        sw_false_of_sw h (by decide) (by decide)
      have e3 : sw "wind_x" (basename name) = false :=
        sw_false_of_sw h (by decide) (by decide)
      have e4 : sw "wind_y" (basename name) = false :=
        sw_false_of_sw h (by decide) (by decide)
      have e5 : sw "av.u" (basename name) = false :=
        sw_false_of_sw h (by decide) (by decide)
      have e6 : sw "av.eta" (basename name) = false :=
        sw_false_of_sw h (by decide) (by decide)
      simp [interpret_raw_file, rawShapeOf, h, e0, e1, e2, e3, e4, e5, e6]
  · rintro (h | h)
    · have e0 : sw "snap.u" (basename name) = false :=
        sw_false_of_sw h (by decide) (by decide)
      have e1 : sw "snap.v" (basename name) = false :=
        sw_false_of_sw h (by decide) (by decide)
      have e2 : sw "wind_x" (basename name) = false :=
        sw_false_of_sw h (by decide) (by decide)
      have e3 : sw "wind_y" (basename name) = false :=
        sw_false_of_sw h (by decide) (by decide)
      have e4 : sw "av.u" (basename name) = false :=
        sw_false_of_sw h (by decide) (by decide)
      have e5 : sw "av.v" (basename name) = false :=
        sw_false_of_sw h (by decide) (by decide)
      have e6 : sw "av.eta" (basename name) = false :=
        sw_false_of_sw h (by decide) (by decide)
      simp [interpret_raw_file, rawShapeOf, h, e0, e1, e2, e3, e4, e5, e6]
    · have e0 : sw "snap.u" (basename name) = false :=
        sw_false_of_sw h (by decide) (by decide)
      have e1 : sw "snap.v" (basename name) = false :=
        sw_false_of_sw h (by decide) (by decide)
      have e2 : sw "snap.eta" (basename name) = false :=
        sw_false_of_sw h (by decide) (by decide)
      have e3 : sw "wind_x" (basename name) = false :=
        sw_false_of_sw h (by decide) (by decide)
      have e4 : sw "wind_y" (basename name) = false :=
        sw_false_of_sw h (by decide) (by decide)
      have e5 : sw "av.u" (basename name) = false :=
        sw_false_of_sw h (by decide) (by decide)
      have e6 : sw "av.v" (basename name) = false :=
        sw_false_of_sw h (by decide) (by decide)
      simp [interpret_raw_file, rawShapeOf, h, e0, e1, e2, e3, e4, e5, e6]
  · intro h
    have e0 : sw "snap.u" (basename name) = false :=
      sw_false_of_sw h (by decide) (by decide)
    have e1 : sw "snap.v" (basename name) = false :=
      sw_false_of_sw h (by decide) (by decide)
    have e2 : sw "snap.eta" (basename name) = false :=
      sw_false_of_sw h (by decide) (by decide)
    have e3 : sw "wind_y" (basename name) = false :=
      sw_false_of_sw h (by decide) (by decide)
    have e4 : sw "av.u" (basename name) = false :=
      sw_false_of_sw h (by decide) (by decide)
    have e5 : sw "av.v" (basename name) = false :=
      sw_false_of_sw h (by decide) (by decide)
    have e6 : sw "av.eta" (basename name) = false :=
      sw_false_of_sw h (by decide) (by decide)
    simp [interpret_raw_file, rawShapeOf, h, e0, e1, e2, e3, e4, e5, e6]
  · intro h
    have e0 : sw "snap.u" (basename name) = false :=
      sw_false_of_sw h (by decide) (by decide)
    have e1 : sw "snap.v" (basename name) = false :=
      sw_false_of_sw h (by decide) (by decide)
    have e2 : sw "snap.eta" (basename name) = false :=
      sw_false_of_sw h (by decide) (by decide)
    have e3 : sw "wind_x" (basename name) = false :=
      sw_false_of_sw h (by decide) (by decide)
    have e4 : sw "av.u" (basename name) = false :=
      sw_false_of_sw h (by decide) (by decide)
    have e5 : sw "av.v" (basename name) = false :=
      sw_false_of_sw h (by decide) (by decide)
    have e6 : sw "av.eta" (basename name) = false :=
      sw_false_of_sw h (by decide) (by decide)
    simp [interpret_raw_file, rawShapeOf, h, e0, e1, e2, e3, e4, e5, e6]
  · rintro ⟨h1, h2, h3, h4, h5, h6, h7, h8, h9, h10⟩
    simp [interpret_raw_file, rawShapeOf, h1, h2, h3, h4, h5, h6, h7, h8, h9, h10]
/-- Concrete instantiation of C1 on the u-family snapshot file
`output/snap.u.0000000001` with `nx = 10`, `ny = 20`, `layers = 2`. -/
theorem interpret_raw_file_spec_witness :
    interpret_raw_file "output/snap.u.0000000001".toList 10 20 2 (fun n => (n : ℚ)) =
      .layered3 (10 + 1, 20, 2)
        (transpose3 (reshape3 2 20 (10 + 1) (fun n => (n : ℚ)))) :=
  (interpret_raw_file_spec "output/snap.u.0000000001".toList 10 20 2
      (fun n => (n : ℚ))).2.1 (Or.inl (by decide))

/-! ## C2 and C10: `interpret_requested_data` — grid construction and the
shape dispatch -/

/-- A configuration whose grid section carries the spec's example values, as
parsed from a configuration file (all values textual). -/
def gridConfig : Config :=
  ⟨sectionList, fun sec name =>
    if sec = "grid" ∧ name = "nx" then some (.str "10")
    else if sec = "grid" ∧ name = "ny" then some (.str "20")
    else if sec = "grid" ∧ name = "layers" then some (.str "1")
    else if sec = "grid" ∧ name = "dx" then some (.str "100000")
    else if sec = "grid" ∧ name = "dy" then some (.str "100000")
    else none⟩

/-- C2 counterexample.  A non-text specification (here the constant `1`)
resolved for shape tag `"time"` — the declared shape of
`wind_mag_time_series_file` — falls through all six array-shape branches into
the final `else` and fails with the "not implemented" condition, contrary to
the claimed exemption. -/
theorem wind_time_series_nontext_counterexample :
    interpret_requested_data (fun _ => none) (.obj (.num 1)) "time" gridConfig =
      .error (.notImplemented "custom generation for other input shapes") := by
  rfl

/-- C2 as amended.  The exemption of `wind_mag_time_series_file` from
array-shape dispatch holds only for text specifications: a string is resolved
(specifier or raw file) without ever consulting the shape tag, but any
non-text specification under the tag `"time"` fails with the
"not implemented" shape-dispatch condition whenever the grid can be built. -/
theorem wind_time_series_shape_dispatch_amended :
    (∀ (fsys : String → Option (List ℚ)) (x : PyObj) (cfg : Config),
        isOk (config_grid cfg) = true →
        interpret_requested_data fsys (.obj x) "time" cfg =
          .error (.notImplemented "custom generation for other input shapes")) ∧
      (∀ (fsys : String → Option (List ℚ)) (s sh1 sh2 : String) (cfg : Config),
        interpret_requested_data fsys (.text s) sh1 cfg =
          interpret_requested_data fsys (.text s) sh2 cfg) := by
  constructor
  · intro fsys x cfg hok
    cases hg : config_grid cfg with
    | error e => rw [hg] at hok; simp [isOk] at hok
    | ok g =>
      unfold interpret_requested_data
      rw [hg]
      show (Except.ok g >>= _) = _
      simp [Bind.bind, Except.bind]
  · intro fsys s sh1 sh2 cfg
    unfold interpret_requested_data
    cases hg : config_grid cfg <;> rfl

/-- Concrete instantiation of the amended C2 theorem: the not-implemented
failure at `gridConfig`, and shape-independence of a raw-file text request. -/
theorem wind_time_series_shape_dispatch_amended_witness :
    interpret_requested_data (fun _ => none) (.obj (.num 2)) "time" gridConfig =
        .error (.notImplemented "custom generation for other input shapes") ∧
      interpret_requested_data (fun _ => none) (.text "depth.bin") "2dT" gridConfig =
        interpret_requested_data (fun _ => none) (.text "depth.bin") "3dV" gridConfig :=
  ⟨wind_time_series_shape_dispatch_amended.1 (fun _ => none) (.num 2) gridConfig
      (by rfl),
    wind_time_series_shape_dispatch_amended.2 (fun _ => none) "depth.bin" "2dT" "3dV"
      gridConfig⟩

/-- When the grid construction at the head of `interpret_requested_data`
succeeds, each of the five grid getters succeeded. -/
lemma config_grid_ok_parts (cfg : Config) (h : isOk (config_grid cfg) = true) :
    isOk (cfg.getint "grid" "nx") = true ∧ isOk (cfg.getint "grid" "ny") = true ∧
      isOk (cfg.getint "grid" "layers") = true ∧
      isOk (cfg.getfloat "grid" "dx") = true ∧
      isOk (cfg.getfloat "grid" "dy") = true := by
  unfold config_grid at h
  cases hnx : cfg.getint "grid" "nx" with
  | error e => rw [hnx] at h; simp [Bind.bind, Except.bind, isOk] at h
  | ok nx =>
    rw [hnx] at h
    cases hny : cfg.getint "grid" "ny" with
    | error e =>
      rw [hny] at h; simp [Bind.bind, Except.bind, isOk] at h
    | ok ny =>
      rw [hny] at h
      cases hl : cfg.getint "grid" "layers" with
      | error e =>
        rw [hl] at h; simp [Bind.bind, Except.bind, isOk] at h
      | ok layers =>
        rw [hl] at h
        cases hdx : cfg.getfloat "grid" "dx" with
        | error e =>
          rw [hdx] at h; simp [Bind.bind, Except.bind, isOk] at h
        | ok dx =>
          rw [hdx] at h
          cases hdy : cfg.getfloat "grid" "dy" with
          | error e =>
            rw [hdy] at h; simp [Bind.bind, Except.bind, isOk] at h
          | ok dy => simp [isOk]

/-- C10.  `interpret_requested_data` always builds the grid before looking at
the requested data, so every request — including a plain raw-file path whose
flat contents are otherwise returned verbatim — fails whenever any of the
five grid options is missing or unparseable; and when the grid options are
good, a plain path (no specifier match) returns the file's record as-is. -/
theorem grid_options_required :
    (∀ (fsys : String → Option (List ℚ)) (requested : ReqData) (shape : String)
        (cfg : Config),
        (isOk (cfg.getint "grid" "nx") = false ∨ isOk (cfg.getint "grid" "ny") = false ∨
          isOk (cfg.getint "grid" "layers") = false ∨
          isOk (cfg.getfloat "grid" "dx") = false ∨
          isOk (cfg.getfloat "grid" "dy") = false) →
        isOk (interpret_requested_data fsys requested shape cfg) = false) ∧
      (∀ (fsys : String → Option (List ℚ)) (s shape : String) (cfg : Config)
        (record : List ℚ),
        isOk (config_grid cfg) = true → interpret_data_specifier s = none →
        fsys s = some record →
        interpret_requested_data fsys (.text s) shape cfg = .ok (.arr1 record)) := by
  constructor
  · intro fsys requested shape cfg h
    cases hcg : config_grid cfg with
    | error e =>
      unfold interpret_requested_data
      rw [hcg]
      rfl
    | ok g =>
      exfalso
      have parts := config_grid_ok_parts cfg (by rw [hcg]; rfl)
      rcases h with h | h | h | h | h <;> simp [h] at parts
  · intro fsys s shape cfg record hok hspec hfs
    cases hcg : config_grid cfg with
    | error e => rw [hcg] at hok; simp [isOk] at hok
    | ok g =>
      unfold interpret_requested_data
      rw [hcg]
      show (Except.ok g >>= _) = _
      simp [Bind.bind, Except.bind, hspec, hfs]

/-- Concrete instantiation of C10: with an empty store even a raw-file path
request fails (the grid getters fail first), while the same request under
`gridConfig` returns the raw record verbatim. -/
theorem grid_options_required_witness :
    isOk (interpret_requested_data (fun _ => some [1, 2, 3]) (.text "depth.bin") "2dT"
        ⟨sectionList, fun _ _ => none⟩) = false ∧
      interpret_requested_data (fun _ => some [1, 2, 3]) (.text "depth.bin") "2dT"
          gridConfig = .ok (.arr1 [1, 2, 3]) :=
  ⟨grid_options_required.1 (fun _ => some [1, 2, 3]) (.text "depth.bin") "2dT"
      ⟨sectionList, fun _ _ => none⟩ (Or.inl (by rfl)),
    grid_options_required.2 (fun _ => some [1, 2, 3]) "depth.bin" "2dT" gridConfig
      [1, 2, 3] (by rfl) (by rfl) (by rfl)⟩

end Aronnax
